import Mathlib

/-!
Shallow embedding of the Vision Workbench runtime-settings component
(`src/vw/Core/Settings.h`): a configuration store holding two typed
settings (default thread count, system cache size) together with a
rate-limited reload protocol for the `~/.vwrc` configuration file.

The header declares the data members and the two inline configuration
setters (`set_vwrc_filename`, `set_vwrc_poll_period`); the bodies of
`stat_vwrc`, `reload_vwrc`, the constructor and the four settings
accessors live in a translation unit that is not part of the sources,
so those are modelled from the specification, as marked on each
definition.

Machine integers: `m_default_num_threads` is a C++ `int`, modelled as
`Int`; `m_system_cache_size` is a `size_t`, modelled as `Nat`; the two
timestamps are `long`, modelled as `Int`; `m_vwrc_poll_period` is a
`double` holding a duration in seconds, modelled as `ℚ` (the claims do
not depend on floating-point rounding).  Mutexes have no sequential
content and are omitted; the embedding is the sequential semantics of
one access at a time.
-/

namespace VW

/-- The mutable state of the `vw::Settings` singleton: the fields of
`class Settings` in `src/vw/Core/Settings.h` (lines 45-59), minus the
three mutexes, which carry no sequential state. -/
structure SettingsState where
  default_num_threads : Int
  default_num_threads_override : Bool
  system_cache_size : Nat
  system_cache_size_override : Bool
  vwrc_last_polltime : Int
  vwrc_last_modification : Int
  vwrc_filename : String
  vwrc_poll_period : ℚ
  deriving Repr, DecidableEq

/-- Modelled from the spec: one parsed line of the configuration file,
as produced by the log-configuration collaborator (the parsing itself
is out of scope).  The two directive kinds owned by this component are
set-thread-count and set-cache-size (megabytes); every other line is a
logging rule forwarded to the logging collaborator and not interpreted
here.  A numeric value parsed from the file may be negative, hence
`Int` payloads. -/
inductive Directive where
  | numThreads (n : Int)
  | cacheSize (n : Int)
  | other
  deriving Repr, DecidableEq

/-- Modelled from the spec (§4.3 Reload, §7): apply one recognized
directive to the settings: set the setting's value and mark it
overridden; an invalid numeric value in a recognized directive
(negative cache size) is skipped and the prior value retained;
unrecognized lines are not interpreted here. -/
def applyDirective (s : SettingsState) (d : Directive) : SettingsState :=
  match d with
  | .numThreads n =>
      { s with default_num_threads := n, default_num_threads_override := true }
  | .cacheSize n =>
      if n < 0 then s
      else { s with system_cache_size := n.toNat, system_cache_size_override := true }
  | .other => s

/-- Modelled from the spec: `Settings::reload_vwrc` (declared at
`Settings.h:63`, body not in the sources).  Re-parse the configuration
file and apply each recognized directive in order; a completely empty
parse leaves the settings untouched. -/
def reload_vwrc (contents : List Directive) (s : SettingsState) : SettingsState :=
  contents.foldl applyDirective s

/-- Modelled from the spec (§4.1 Poll Gate): the poll gate is due when
at least one poll period has elapsed since the last poll. -/
def pollDue (now : Int) (s : SettingsState) : Bool :=
  decide (s.vwrc_poll_period ≤ ((now - s.vwrc_last_polltime : Int) : ℚ))

/-- Modelled from the spec (§4.2 Stat Check): given the stat result
`mtime` (`none` when the file does not exist or is unreadable), decide
whether a reload fires: the file exists and its modification time is
strictly newer than the stored last observed modification timestamp. -/
def statSeesChange (mtime : Option Int) (s : SettingsState) : Bool :=
  match mtime with
  | none => false
  | some m => decide (s.vwrc_last_modification < m)

/-- Modelled from the spec (§4.2 Stat Check): if the file is absent or
unreadable, treat as unchanged (no error, overrides kept); if its
modification time is strictly newer than the stored timestamp, update
the timestamp and invoke Reload; otherwise no-op. -/
def statCheck (mtime : Option Int) (contents : List Directive)
    (s : SettingsState) : SettingsState :=
  match mtime with
  | none => s
  | some m =>
      if s.vwrc_last_modification < m then
        reload_vwrc contents { s with vwrc_last_modification := m }
      else s

/-- Modelled from the spec: `Settings::stat_vwrc` (declared at
`Settings.h:62`, body not in the sources).  Poll Gate (§4.1): if
`now - lastPollTime < pollPeriod`, return immediately; otherwise record
`lastPollTime = now` and proceed to the Stat Check (§4.2). -/
def stat_vwrc (now : Int) (mtime : Option Int) (contents : List Directive)
    (s : SettingsState) : SettingsState :=
  if pollDue now s then
    statCheck mtime contents { s with vwrc_last_polltime := now }
  else s

/-- Modelled from the spec (§4.4): `Settings::default_num_threads`
(declared at `Settings.h:99`, body not in the sources).  Runs the
Poll Gate → Stat Check → Reload chain, then returns the current value.
Returns the value together with the post-state. -/
def default_num_threads (now : Int) (mtime : Option Int)
    (contents : List Directive) (s : SettingsState) : Int × SettingsState :=
  let s' := stat_vwrc now mtime contents s
  (s'.default_num_threads, s')

/-- Modelled from the spec (§4.4): `Settings::system_cache_size`
(declared at `Settings.h:107`, body not in the sources). -/
def system_cache_size (now : Int) (mtime : Option Int)
    (contents : List Directive) (s : SettingsState) : Nat × SettingsState :=
  let s' := stat_vwrc now mtime contents s
  (s'.system_cache_size, s')

/-- Modelled from the spec (§4.4): `Settings::set_default_num_threads`
(declared at `Settings.h:103`, body not in the sources).  Writes the
value and marks the setting explicitly overridden; does not itself
trigger a poll. -/
def set_default_num_threads (num : Int) (s : SettingsState) : SettingsState :=
  { s with default_num_threads := num, default_num_threads_override := true }

/-- Modelled from the spec (§4.4): `Settings::set_system_cache_size`
(declared at `Settings.h:112`, body not in the sources).  The argument
is a `size_t`, hence `Nat`. -/
def set_system_cache_size (size : Nat) (s : SettingsState) : SettingsState :=
  { s with system_cache_size := size, system_cache_size_override := true }

/-- `Settings::set_vwrc_filename` (inline in `Settings.h:78-82`):
`m_vwrc_filename = filename; m_vwrc_last_polltime = 0; stat_vwrc();`.
The `stat_vwrc()` call stats at the current time `now` against the
then-current file state. -/
def set_vwrc_filename (filename : String) (now : Int) (mtime : Option Int)
    (contents : List Directive) (s : SettingsState) : SettingsState :=
  stat_vwrc now mtime contents
    { s with vwrc_filename := filename, vwrc_last_polltime := 0 }

/-- `Settings::set_vwrc_poll_period` (inline in `Settings.h:87-91`):
`m_vwrc_poll_period = period; m_vwrc_last_polltime = 0; stat_vwrc();`. -/
def set_vwrc_poll_period (period : ℚ) (now : Int) (mtime : Option Int)
    (contents : List Directive) (s : SettingsState) : SettingsState :=
  stat_vwrc now mtime contents
    { s with vwrc_poll_period := period, vwrc_last_polltime := 0 }

/-- Modelled from the spec: the `Settings::Settings()` constructor
(declared at `Settings.h:75`, body not in the sources).  The singleton
is constructed with defaults: poll period = 5 seconds, file path
`~/.vwrc` (header doc, lines 77 and 84), no overrides.  The built-in
default thread count is platform-defined and the default cache size
implementation-defined, so both are parameters. -/
def SettingsState.init (dthreads : Int) (dcache : Nat) : SettingsState :=
  { default_num_threads := dthreads
    default_num_threads_override := false
    system_cache_size := dcache
    system_cache_size_override := false
    vwrc_last_polltime := 0
    vwrc_last_modification := 0
    vwrc_filename := "~/.vwrc"
    vwrc_poll_period := 5 }

/-! ## Event-trace semantics

One access at a time; each file-touching event carries the monotonic
time `now` at which it runs and the file state (`mtime`, parsed
`contents`) it would observe if it stat'd/read the file then. -/

/-- One public access to the settings object. -/
inductive Event where
  | getThreads (now : Int) (mtime : Option Int) (contents : List Directive)
  | getCache (now : Int) (mtime : Option Int) (contents : List Directive)
  | setThreads (n : Int)
  | setCache (n : Nat)
  | setFilename (filename : String) (now : Int) (mtime : Option Int)
      (contents : List Directive)
  | setPollPeriod (period : ℚ) (now : Int) (mtime : Option Int)
      (contents : List Directive)
  deriving Repr

/-- The state transition of one access. -/
def step (s : SettingsState) (e : Event) : SettingsState :=
  match e with
  | .getThreads now mtime contents => (default_num_threads now mtime contents s).2
  | .getCache now mtime contents => (system_cache_size now mtime contents s).2
  | .setThreads n => set_default_num_threads n s
  | .setCache n => set_system_cache_size n s
  | .setFilename f now mtime contents => set_vwrc_filename f now mtime contents s
  | .setPollPeriod p now mtime contents => set_vwrc_poll_period p now mtime contents s

/-- Run a sequence of accesses. -/
def run (s : SettingsState) (es : List Event) : SettingsState :=
  es.foldl step s

/-- Whether executing `e` from state `s` performs a stat of the
configuration file (the poll gate lets it through). -/
def doesStat (s : SettingsState) (e : Event) : Bool :=
  match e with
  | .getThreads now _ _ => pollDue now s
  | .getCache now _ _ => pollDue now s
  | .setThreads _ => false
  | .setCache _ => false
  | .setFilename f now _ _ =>
      pollDue now { s with vwrc_filename := f, vwrc_last_polltime := 0 }
  | .setPollPeriod p now _ _ =>
      pollDue now { s with vwrc_poll_period := p, vwrc_last_polltime := 0 }

/-- Whether executing `e` from state `s` triggers a reload of the
configuration file (stat performed and modification time strictly
newer than the stored timestamp). -/
def doesReload (s : SettingsState) (e : Event) : Bool :=
  match e with
  | .getThreads now mtime _ => pollDue now s && statSeesChange mtime s
  | .getCache now mtime _ => pollDue now s && statSeesChange mtime s
  | .setThreads _ => false
  | .setCache _ => false
  | .setFilename f now mtime _ =>
      let s' := { s with vwrc_filename := f, vwrc_last_polltime := 0 }
      pollDue now s' && statSeesChange mtime s'
  | .setPollPeriod p now mtime _ =>
      let s' := { s with vwrc_poll_period := p, vwrc_last_polltime := 0 }
      pollDue now s' && statSeesChange mtime s'

/-- Number of stats performed along a trace. -/
def countStats (s : SettingsState) : List Event → Nat
  | [] => 0
  | e :: es => (if doesStat s e then 1 else 0) + countStats (step s e) es

/-- Number of reloads triggered along a trace. -/
def countReloads (s : SettingsState) : List Event → Nat
  | [] => 0
  | e :: es => (if doesReload s e then 1 else 0) + countReloads (step s e) es

/-- The monotonic time at which a read event runs (unused default 0
for the setter events). -/
def Event.gtime : Event → Int
  | .getThreads now _ _ => now
  | .getCache now _ _ => now
  | _ => 0

/-- Whether an event is a settings read: a call to
`default_num_threads()` or `system_cache_size()`. -/
def Event.isGet : Event → Bool
  | .getThreads _ _ _ => true
  | .getCache _ _ _ => true
  | _ => false

/-- Whether an event is an explicit settings write: a call to
`set_default_num_threads()` or `set_system_cache_size()`. -/
def Event.isExplicitSet : Event → Bool
  | .setThreads _ => true
  | .setCache _ => true
  | _ => false

/-- Whether a directive writes the thread-count setting. -/
def Directive.writesThreads : Directive → Bool
  | .numThreads _ => true
  | _ => false

/-- Whether a directive writes the cache-size setting.  A negative
cache size is an invalid value: the directive is skipped, so it does
not write. -/
def Directive.writesCache : Directive → Bool
  | .cacheSize n => decide (0 ≤ n)
  | _ => false

/-- Whether an event can write the thread-count setting: an explicit
`set_default_num_threads` call, or any file-statting access whose
parsed contents carry a thread-count directive. -/
def Event.mayWriteThreads : Event → Bool
  | .setThreads _ => true
  | .setCache _ => false
  | .getThreads _ _ c => c.any Directive.writesThreads
  | .getCache _ _ c => c.any Directive.writesThreads
  | .setFilename _ _ _ c => c.any Directive.writesThreads
  | .setPollPeriod _ _ _ c => c.any Directive.writesThreads

/-- Whether an event can write the cache-size setting. -/
def Event.mayWriteCache : Event → Bool
  | .setCache _ => true
  | .setThreads _ => false
  | .getThreads _ _ c => c.any Directive.writesCache
  | .getCache _ _ c => c.any Directive.writesCache
  | .setFilename _ _ _ c => c.any Directive.writesCache
  | .setPollPeriod _ _ _ c => c.any Directive.writesCache

/-- The last thread-count value a directive list writes, if any. -/
def lastThreads : List Directive → Option Int
  | [] => none
  | .numThreads n :: c => some ((lastThreads c).getD n)
  | _ :: c => lastThreads c

/-- The last valid (non-negative) cache-size value a directive list
writes, if any. -/
def lastCache : List Directive → Option Nat
  | [] => none
  | .cacheSize n :: c =>
      if n < 0 then lastCache c else some ((lastCache c).getD n.toNat)
  | _ :: c => lastCache c

end VW

namespace VW

/-! ## Helper lemmas: frame properties of the reload machinery -/

lemma applyDirective_polltime (s : SettingsState) (d : Directive) :
    (applyDirective s d).vwrc_last_polltime = s.vwrc_last_polltime := by
  cases d with
  | numThreads n => rfl
  | cacheSize n => by_cases h : n < 0 <;> simp [applyDirective, h]
  | other => rfl

lemma applyDirective_lastmod (s : SettingsState) (d : Directive) :
    (applyDirective s d).vwrc_last_modification = s.vwrc_last_modification := by
  cases d with
  | numThreads n => rfl
  | cacheSize n => by_cases h : n < 0 <;> simp [applyDirective, h]
  | other => rfl

lemma applyDirective_filename (s : SettingsState) (d : Directive) :
    (applyDirective s d).vwrc_filename = s.vwrc_filename := by
  cases d with
  | numThreads n => rfl
  | cacheSize n => by_cases h : n < 0 <;> simp [applyDirective, h]
  | other => rfl

lemma applyDirective_period (s : SettingsState) (d : Directive) :
    (applyDirective s d).vwrc_poll_period = s.vwrc_poll_period := by
  cases d with
  | numThreads n => rfl
  | cacheSize n => by_cases h : n < 0 <;> simp [applyDirective, h]
  | other => rfl

lemma reload_vwrc_polltime (c : List Directive) (s : SettingsState) :
    (reload_vwrc c s).vwrc_last_polltime = s.vwrc_last_polltime := by
  induction c generalizing s with
  | nil => rfl
  | cons d c ih => rw [reload_vwrc, List.foldl_cons, ← reload_vwrc, ih,
      applyDirective_polltime]

lemma reload_vwrc_lastmod (c : List Directive) (s : SettingsState) :
    (reload_vwrc c s).vwrc_last_modification = s.vwrc_last_modification := by
  induction c generalizing s with
  | nil => rfl
  | cons d c ih => rw [reload_vwrc, List.foldl_cons, ← reload_vwrc, ih,
      applyDirective_lastmod]

lemma reload_vwrc_filename (c : List Directive) (s : SettingsState) :
    (reload_vwrc c s).vwrc_filename = s.vwrc_filename := by
  induction c generalizing s with
  | nil => rfl
  | cons d c ih => rw [reload_vwrc, List.foldl_cons, ← reload_vwrc, ih,
      applyDirective_filename]

lemma reload_vwrc_period (c : List Directive) (s : SettingsState) :
    (reload_vwrc c s).vwrc_poll_period = s.vwrc_poll_period := by
  induction c generalizing s with
  | nil => rfl
  | cons d c ih => rw [reload_vwrc, List.foldl_cons, ← reload_vwrc, ih,
      applyDirective_period]

lemma statCheck_polltime (mtime : Option Int) (c : List Directive)
    (s : SettingsState) :
    (statCheck mtime c s).vwrc_last_polltime = s.vwrc_last_polltime := by
  cases mtime with
  | none => rfl
  | some m =>
      by_cases h : s.vwrc_last_modification < m <;>
        simp [statCheck, h, reload_vwrc_polltime]

lemma statCheck_period (mtime : Option Int) (c : List Directive)
    (s : SettingsState) :
    (statCheck mtime c s).vwrc_poll_period = s.vwrc_poll_period := by
  cases mtime with
  | none => rfl
  | some m =>
      by_cases h : s.vwrc_last_modification < m <;>
        simp [statCheck, h, reload_vwrc_period]

lemma statCheck_filename (mtime : Option Int) (c : List Directive)
    (s : SettingsState) :
    (statCheck mtime c s).vwrc_filename = s.vwrc_filename := by
  cases mtime with
  | none => rfl
  | some m =>
      by_cases h : s.vwrc_last_modification < m <;>
        simp [statCheck, h, reload_vwrc_filename]

lemma stat_vwrc_period (now : Int) (mtime : Option Int) (c : List Directive)
    (s : SettingsState) :
    (stat_vwrc now mtime c s).vwrc_poll_period = s.vwrc_poll_period := by
  by_cases h : pollDue now s <;> simp [stat_vwrc, h, statCheck_period]

lemma stat_vwrc_polltime (now : Int) (mtime : Option Int) (c : List Directive)
    (s : SettingsState) :
    (stat_vwrc now mtime c s).vwrc_last_polltime =
      if pollDue now s then now else s.vwrc_last_polltime := by
  by_cases h : pollDue now s <;> simp [stat_vwrc, h, statCheck_polltime]

lemma stat_vwrc_not_due (now : Int) (mtime : Option Int) (c : List Directive)
    (s : SettingsState) (h : pollDue now s = false) :
    stat_vwrc now mtime c s = s := by
  simp [stat_vwrc, h]

end VW

namespace VW

/-- **C3**: if the configuration file does not exist or is unreadable
when the stat check runs (`mtime = none`), every setting value and
every override flag is left unchanged, and the access completes
normally, returning the previously held value (the embedding is total:
no error path exists). -/
theorem C3_absent_file_graceful :
    ∀ (s : SettingsState) (now : Int) (c : List Directive),
    (default_num_threads now none c s).1 = s.default_num_threads ∧
    (system_cache_size now none c s).1 = s.system_cache_size ∧
    (step s (.getThreads now none c)).default_num_threads = s.default_num_threads ∧
    (step s (.getThreads now none c)).default_num_threads_override
      = s.default_num_threads_override ∧
    (step s (.getThreads now none c)).system_cache_size = s.system_cache_size ∧
    (step s (.getThreads now none c)).system_cache_size_override
      = s.system_cache_size_override ∧
    (step s (.getCache now none c)).default_num_threads = s.default_num_threads ∧
    (step s (.getCache now none c)).default_num_threads_override
      = s.default_num_threads_override ∧
    (step s (.getCache now none c)).system_cache_size = s.system_cache_size ∧
    (step s (.getCache now none c)).system_cache_size_override
      = s.system_cache_size_override := by
  intro s now c
  by_cases h : pollDue now s <;>
    simp [step, default_num_threads, system_cache_size, stat_vwrc, statCheck, h]

/-- **C7**: an explicit setter writes the given value, sets that
setting's override flag, and changes nothing else: it performs no
poll, no stat and no reload, and leaves the other setting, its flag,
and the reload state (file path, poll period, last poll time, last
observed modification time) unchanged. -/
theorem C7_explicit_setters_frame :
    ∀ (s : SettingsState) (n : Int) (sz : Nat),
    (set_default_num_threads n s).default_num_threads = n ∧
    (set_default_num_threads n s).default_num_threads_override = true ∧
    (set_default_num_threads n s).system_cache_size = s.system_cache_size ∧
    (set_default_num_threads n s).system_cache_size_override
      = s.system_cache_size_override ∧
    (set_default_num_threads n s).vwrc_last_polltime = s.vwrc_last_polltime ∧
    (set_default_num_threads n s).vwrc_last_modification
      = s.vwrc_last_modification ∧
    (set_default_num_threads n s).vwrc_filename = s.vwrc_filename ∧
    (set_default_num_threads n s).vwrc_poll_period = s.vwrc_poll_period ∧
    doesStat s (.setThreads n) = false ∧
    doesReload s (.setThreads n) = false ∧
    (set_system_cache_size sz s).system_cache_size = sz ∧
    (set_system_cache_size sz s).system_cache_size_override = true ∧
    (set_system_cache_size sz s).default_num_threads = s.default_num_threads ∧
    (set_system_cache_size sz s).default_num_threads_override
      = s.default_num_threads_override ∧
    (set_system_cache_size sz s).vwrc_last_polltime = s.vwrc_last_polltime ∧
    (set_system_cache_size sz s).vwrc_last_modification
      = s.vwrc_last_modification ∧
    (set_system_cache_size sz s).vwrc_filename = s.vwrc_filename ∧
    (set_system_cache_size sz s).vwrc_poll_period = s.vwrc_poll_period ∧
    doesStat s (.setCache sz) = false ∧
    doesReload s (.setCache sz) = false := by
  intro s n sz
  simp [set_default_num_threads, set_system_cache_size, doesStat, doesReload]

/-- **C10**: the programmatic cache-size interface is typed unsigned
(`size_t`, embedded as `Nat`): no negative cache size can be supplied
to `set_system_cache_size` or observed from `system_cache_size`; a
negative cache size can only arise as the payload of a parsed file
directive, where it is skipped. -/
theorem C10_cache_size_unsigned :
    ∀ (s : SettingsState) (sz : Nat) (now : Int) (mtime : Option Int)
      (c : List Directive) (m : Int),
    (0 : Int) ≤ ((set_system_cache_size sz s).system_cache_size : Int) ∧
    (0 : Int) ≤ ((system_cache_size now mtime c s).1 : Int) ∧
    (m < 0 → applyDirective s (.cacheSize m) = s) := by
  intro s sz now mtime c m
  exact ⟨Int.natCast_nonneg _, Int.natCast_nonneg _,
    fun h => by simp [applyDirective, h]⟩

/-- Witness for **C10** at a concrete input. -/
theorem C10_cache_size_unsigned_witness :
    (0 : Int) ≤
      ((set_system_cache_size 5 (SettingsState.init 4 768)).system_cache_size : Int) ∧
    (0 : Int) ≤
      ((system_cache_size 10 none [] (SettingsState.init 4 768)).1 : Int) ∧
    applyDirective (SettingsState.init 4 768) (.cacheSize (-3))
      = SettingsState.init 4 768 := by
  obtain ⟨h1, h2, h3⟩ :=
    C10_cache_size_unsigned (SettingsState.init 4 768) 5 10 none [] (-3)
  exact ⟨h1, h2, h3 (by decide)⟩

end VW

namespace VW

/-! ## Characterization of reload on each settings field -/

lemma reload_threads_char (c : List Directive) (s : SettingsState) :
    (reload_vwrc c s).default_num_threads
      = (lastThreads c).getD s.default_num_threads := by
  induction c generalizing s with
  | nil => rfl
  | cons d c ih =>
      rw [reload_vwrc, List.foldl_cons, ← reload_vwrc, ih]
      cases d with
      | numThreads n =>
          cases h : lastThreads c <;> simp [lastThreads, h, applyDirective]
      | cacheSize n =>
          by_cases hn : n < 0 <;> simp [lastThreads, applyDirective, hn]
      | other => simp [lastThreads, applyDirective]

lemma reload_threads_flag_char (c : List Directive) (s : SettingsState) :
    (reload_vwrc c s).default_num_threads_override
      = (s.default_num_threads_override || (lastThreads c).isSome) := by
  induction c generalizing s with
  | nil => simp [reload_vwrc, lastThreads]
  | cons d c ih =>
      rw [reload_vwrc, List.foldl_cons, ← reload_vwrc, ih]
      cases d with
      | numThreads n =>
          cases h : lastThreads c <;> simp [lastThreads, h, applyDirective]
      | cacheSize n =>
          by_cases hn : n < 0 <;> simp [lastThreads, applyDirective, hn]
      | other => simp [lastThreads, applyDirective]

lemma reload_cache_char (c : List Directive) (s : SettingsState) :
    (reload_vwrc c s).system_cache_size
      = (lastCache c).getD s.system_cache_size := by
  induction c generalizing s with
  | nil => rfl
  | cons d c ih =>
      rw [reload_vwrc, List.foldl_cons, ← reload_vwrc, ih]
      cases d with
      | numThreads n => simp [lastCache, applyDirective]
      | cacheSize n =>
          by_cases hn : n < 0
          · simp [lastCache, applyDirective, hn]
          · cases h : lastCache c <;> simp [lastCache, h, applyDirective, hn]
      | other => simp [lastCache, applyDirective]

lemma reload_cache_flag_char (c : List Directive) (s : SettingsState) :
    (reload_vwrc c s).system_cache_size_override
      = (s.system_cache_size_override || (lastCache c).isSome) := by
  induction c generalizing s with
  | nil => simp [reload_vwrc, lastCache]
  | cons d c ih =>
      rw [reload_vwrc, List.foldl_cons, ← reload_vwrc, ih]
      cases d with
      | numThreads n => simp [lastCache, applyDirective]
      | cacheSize n =>
          by_cases hn : n < 0
          · simp [lastCache, applyDirective, hn]
          · cases h : lastCache c <;> simp [lastCache, h, applyDirective, hn]
      | other => simp [lastCache, applyDirective]

lemma SettingsState.ext_of_fields {s t : SettingsState}
    (h1 : s.default_num_threads = t.default_num_threads)
    (h2 : s.default_num_threads_override = t.default_num_threads_override)
    (h3 : s.system_cache_size = t.system_cache_size)
    (h4 : s.system_cache_size_override = t.system_cache_size_override)
    (h5 : s.vwrc_last_polltime = t.vwrc_last_polltime)
    (h6 : s.vwrc_last_modification = t.vwrc_last_modification)
    (h7 : s.vwrc_filename = t.vwrc_filename)
    (h8 : s.vwrc_poll_period = t.vwrc_poll_period) : s = t := by
  cases s; cases t; simp_all

/-- **C8**: reload is idempotent: applying `reload_vwrc` twice with
the same parsed file contents (no intervening file edit or setter
call) yields a state identical to applying it once — in particular the
two setting values and the two override flags agree. -/
theorem C8_reload_idempotent :
    ∀ (c : List Directive) (s : SettingsState),
    reload_vwrc c (reload_vwrc c s) = reload_vwrc c s := by
  intro c s
  apply SettingsState.ext_of_fields
  · rw [reload_threads_char, reload_threads_char]
    cases lastThreads c <;> simp
  · rw [reload_threads_flag_char, reload_threads_flag_char]
    cases lastThreads c <;> cases s.default_num_threads_override <;> simp
  · rw [reload_cache_char, reload_cache_char]
    cases lastCache c <;> simp
  · rw [reload_cache_flag_char, reload_cache_flag_char]
    cases lastCache c <;> cases s.system_cache_size_override <;> simp
  · rw [reload_vwrc_polltime, reload_vwrc_polltime]
  · rw [reload_vwrc_lastmod, reload_vwrc_lastmod]
  · rw [reload_vwrc_filename, reload_vwrc_filename]
  · rw [reload_vwrc_period, reload_vwrc_period]

end VW

namespace VW

/-! ## Poll-gate lemmas -/

lemma pollDue_false_iff (now : Int) (s : SettingsState) :
    pollDue now s = false ↔
      ((now - s.vwrc_last_polltime : Int) : ℚ) < s.vwrc_poll_period := by
  simp [pollDue, not_le]

lemma pollDue_true_iff (now : Int) (s : SettingsState) :
    pollDue now s = true ↔
      s.vwrc_poll_period ≤ ((now - s.vwrc_last_polltime : Int) : ℚ) := by
  simp [pollDue]

lemma step_get_skip (s : SettingsState) (e : Event) (hg : e.isGet = true)
    (hd : doesStat s e = false) : step s e = s := by
  cases e <;>
    simp_all [Event.isGet, doesStat, step, default_num_threads,
      system_cache_size, stat_vwrc_not_due]

lemma step_get_stat (s : SettingsState) (e : Event) (hg : e.isGet = true)
    (hd : doesStat s e = true) :
    (step s e).vwrc_last_polltime = e.gtime ∧
    (step s e).vwrc_poll_period = s.vwrc_poll_period := by
  cases e <;>
    simp_all [Event.isGet, Event.gtime, doesStat, step, default_num_threads,
      system_cache_size, stat_vwrc_polltime, stat_vwrc_period]

lemma run_no_stat (es : List Event) (s : SettingsState)
    (hg : ∀ e ∈ es, e.isGet = true)
    (hlt : ∀ e ∈ es,
      ((e.gtime - s.vwrc_last_polltime : Int) : ℚ) < s.vwrc_poll_period) :
    run s es = s ∧ countStats s es = 0 := by
  induction es with
  | nil => exact ⟨rfl, rfl⟩
  | cons e es ih =>
      have hge : e.isGet = true := hg e (by simp)
      have hde : doesStat s e = false := by
        have hlte := hlt e (by simp)
        cases e <;>
          simp_all [Event.isGet, Event.gtime, doesStat, pollDue_false_iff]
      have hstep : step s e = s := step_get_skip s e hge hde
      have hrest := ih (fun f hf => hg f (by simp [hf]))
        (fun f hf => hlt f (by simp [hf]))
      refine ⟨?_, ?_⟩
      · rw [run, List.foldl_cons, hstep, ← run, hrest.1]
      · rw [countStats, hde, hstep, hrest.2]
        simp

lemma countStats_le_one (es : List Event) :
    ∀ s : SettingsState, (∀ e ∈ es, e.isGet = true) →
    (∀ e ∈ es, ∀ f ∈ es,
      ((e.gtime - f.gtime : Int) : ℚ) < s.vwrc_poll_period) →
    countStats s es ≤ 1 := by
  induction es with
  | nil => intro s _ _; simp [countStats]
  | cons e es ih =>
      intro s hg hw
      have hge : e.isGet = true := hg e (by simp)
      by_cases hd : doesStat s e
      · have hpoll := step_get_stat s e hge hd
        have hzero : countStats (step s e) es = 0 := by
          refine (run_no_stat es (step s e) (fun f hf => hg f (by simp [hf]))
            (fun f hf => ?_)).2
          rw [hpoll.1, hpoll.2]
          exact hw f (by simp [hf]) e (by simp)
        rw [countStats, hd, hzero]
        simp
      · have hd' : doesStat s e = false := by simpa using hd
        rw [countStats, hd', step_get_skip s e hge hd']
        simpa using ih s (fun f hf => hg f (by simp [hf]))
          (fun f hf g hgmem => hw f (by simp [hf]) g (by simp [hgmem]))

/-- **C1**: rate limiting.  (a) For every sequence of settings reads
(calls to `default_num_threads()` or `system_cache_size()`) whose
times all lie within a window shorter than one poll period, the
configuration file is stat'd at most once.  (b) A read arriving before
`lastPollTime + pollPeriod` performs no stat. -/
theorem C1_rate_limiting (s : SettingsState) (es : List Event)
    (hg : ∀ e ∈ es, e.isGet = true)
    (hw : ∀ e ∈ es, ∀ f ∈ es,
      ((e.gtime - f.gtime : Int) : ℚ) < s.vwrc_poll_period) :
    countStats s es ≤ 1 ∧
    ∀ (now : Int) (mtime : Option Int) (c : List Directive),
      ((now - s.vwrc_last_polltime : Int) : ℚ) < s.vwrc_poll_period →
      doesStat s (.getThreads now mtime c) = false ∧
      doesStat s (.getCache now mtime c) = false := by
  refine ⟨countStats_le_one es s hg hw, fun now mtime c h => ?_⟩
  constructor <;> simpa [doesStat] using (pollDue_false_iff now s).2 h

/-- Witness for **C1**: three reads at times 100, 101 and 103 against
a store with poll period 5 and last poll time 0 stat the file exactly
once (the first read stats, the other two are gated), and a read at
time 3 performs no stat at all. -/
theorem C1_rate_limiting_witness :
    countStats (SettingsState.init 4 768)
      [.getThreads 100 none [], .getCache 101 none [],
       .getThreads 103 none []] ≤ 1 ∧
    doesStat (SettingsState.init 4 768) (.getThreads 3 none []) = false := by
  have h := C1_rate_limiting (SettingsState.init 4 768)
    [.getThreads 100 none [], .getCache 101 none [], .getThreads 103 none []]
    (by decide) (by decide)
  exact ⟨h.1, (h.2 3 none [] (by decide)).1⟩

end VW

namespace VW

/-- **C2**: change detection.  For an access whose poll gate is due
(spaced at least a poll period after the recorded last poll), a reload
is triggered (exactly once for that access) if and only if the file
exists and its modification time is strictly newer than the stored
last observed modification timestamp; on a reload the stored timestamp
becomes the new modification time; if the modification time is
unchanged or older (or the file is absent), no reload occurs, the
stored timestamp is not updated, and the settings are untouched. -/
theorem C2_change_detection (s : SettingsState) (now : Int) (mtime : Option Int)
    (c : List Directive)
    (h : s.vwrc_poll_period ≤ ((now - s.vwrc_last_polltime : Int) : ℚ)) :
    (countReloads s [.getThreads now mtime c] = 1 ↔
      ∃ m, mtime = some m ∧ s.vwrc_last_modification < m) ∧
    (countReloads s [.getCache now mtime c] = 1 ↔
      ∃ m, mtime = some m ∧ s.vwrc_last_modification < m) ∧
    (∀ m, mtime = some m → s.vwrc_last_modification < m →
      (step s (.getThreads now mtime c)).vwrc_last_modification = m) ∧
    (statSeesChange mtime s = false →
      (step s (.getThreads now mtime c)).vwrc_last_modification
        = s.vwrc_last_modification ∧
      (step s (.getThreads now mtime c)).default_num_threads
        = s.default_num_threads ∧
      (step s (.getThreads now mtime c)).default_num_threads_override
        = s.default_num_threads_override ∧
      (step s (.getThreads now mtime c)).system_cache_size
        = s.system_cache_size ∧
      (step s (.getThreads now mtime c)).system_cache_size_override
        = s.system_cache_size_override ∧
      (step s (.getCache now mtime c)).vwrc_last_modification
        = s.vwrc_last_modification) := by
  have hdue : pollDue now s = true := (pollDue_true_iff now s).2 h
  refine ⟨?_, ?_, ?_, ?_⟩
  · cases mtime with
    | none => simp [countReloads, doesReload, hdue, statSeesChange]
    | some m =>
        by_cases hm : s.vwrc_last_modification < m <;>
          simp [countReloads, doesReload, hdue, statSeesChange, hm]
  · cases mtime with
    | none => simp [countReloads, doesReload, hdue, statSeesChange]
    | some m =>
        by_cases hm : s.vwrc_last_modification < m <;>
          simp [countReloads, doesReload, hdue, statSeesChange, hm]
  · intro m hm hlt
    subst hm
    simp [step, default_num_threads, stat_vwrc, hdue, statCheck, hlt,
      reload_vwrc_lastmod]
  · intro hsc
    cases mtime with
    | none =>
        simp [step, default_num_threads, system_cache_size, stat_vwrc, hdue,
          statCheck]
    | some m =>
        have hm : ¬ s.vwrc_last_modification < m := by
          simpa [statSeesChange] using hsc
        simp [step, default_num_threads, system_cache_size, stat_vwrc, hdue,
          statCheck, hm]

/-- Witness for **C2**: from the freshly constructed store, a read at
time 100 seeing modification time 7 triggers exactly one reload and
records timestamp 7; a read seeing an absent file leaves the stored
timestamp untouched. -/
theorem C2_change_detection_witness :
    countReloads (SettingsState.init 4 768) [.getThreads 100 (some 7) []] = 1 ∧
    (step (SettingsState.init 4 768)
      (.getThreads 100 (some 7) [])).vwrc_last_modification = 7 ∧
    (step (SettingsState.init 4 768)
      (.getThreads 100 none [])).vwrc_last_modification
      = (SettingsState.init 4 768).vwrc_last_modification := by
  have h1 := C2_change_detection (SettingsState.init 4 768) 100 (some 7) []
    (by decide)
  have h2 := C2_change_detection (SettingsState.init 4 768) 100 none []
    (by decide)
  exact ⟨h1.1.2 ⟨7, rfl, by decide⟩, h1.2.2.1 7 rfl (by decide),
    (h2.2.2.2 (by decide)).1⟩

/-- **C4**: every settings read runs the Poll Gate → Stat Check →
Reload chain and then returns the requested value read from the
post-chain state: the getters factor through `stat_vwrc`; `stat_vwrc`
is a no-op when the gate is not due, and otherwise records the poll
time and runs the stat check; the stat check invokes the reload
exactly when the modification time is strictly newer, after recording
it. -/
theorem C4_getter_chain (s : SettingsState) (now : Int) (mtime : Option Int)
    (c : List Directive) :
    (default_num_threads now mtime c s).2 = stat_vwrc now mtime c s ∧
    (default_num_threads now mtime c s).1
      = (stat_vwrc now mtime c s).default_num_threads ∧
    (system_cache_size now mtime c s).2 = stat_vwrc now mtime c s ∧
    (system_cache_size now mtime c s).1
      = (stat_vwrc now mtime c s).system_cache_size ∧
    (pollDue now s = false → stat_vwrc now mtime c s = s) ∧
    (pollDue now s = true →
      stat_vwrc now mtime c s
        = statCheck mtime c { s with vwrc_last_polltime := now }) ∧
    (∀ m, s.vwrc_last_modification < m →
      statCheck (some m) c s
        = reload_vwrc c { s with vwrc_last_modification := m }) ∧
    (∀ m, ¬ s.vwrc_last_modification < m → statCheck (some m) c s = s) ∧
    statCheck none c s = s := by
  refine ⟨rfl, rfl, rfl, rfl, fun h => by simp [stat_vwrc, h],
    fun h => by simp [stat_vwrc, h], fun m hm => by simp [statCheck, hm],
    fun m hm => by simp [statCheck, hm], rfl⟩

/-- Witness for **C4** at concrete inputs: a read at time 3 (gate not
due) leaves the fresh store unchanged; a read at time 100 (gate due)
proceeds to the stat check with the poll time recorded. -/
theorem C4_getter_chain_witness :
    stat_vwrc 3 none [] (SettingsState.init 4 768) = SettingsState.init 4 768 ∧
    (default_num_threads 3 none [] (SettingsState.init 4 768)).1
      = (stat_vwrc 3 none [] (SettingsState.init 4 768)).default_num_threads ∧
    stat_vwrc 100 (some 7) [] (SettingsState.init 4 768)
      = statCheck (some 7) []
          { SettingsState.init 4 768 with vwrc_last_polltime := 100 } := by
  have h1 := C4_getter_chain (SettingsState.init 4 768) 3 none []
  have h2 := C4_getter_chain (SettingsState.init 4 768) 100 (some 7) []
  exact ⟨h1.2.2.2.2.1 (by decide), h1.2.1, h2.2.2.2.2.2.1 (by decide)⟩

end VW

namespace VW

/-! ## Write-tracking frame lemmas -/

lemma reload_no_threads_write (c : List Directive) (s : SettingsState)
    (h : c.any Directive.writesThreads = false) :
    (reload_vwrc c s).default_num_threads = s.default_num_threads ∧
    (reload_vwrc c s).default_num_threads_override
      = s.default_num_threads_override := by
  induction c generalizing s with
  | nil => exact ⟨rfl, rfl⟩
  | cons d c ih =>
      simp only [List.any_cons, Bool.or_eq_false_iff] at h
      rw [reload_vwrc, List.foldl_cons, ← reload_vwrc]
      have hrest := ih (applyDirective s d) h.2
      cases d with
      | numThreads n => simp [Directive.writesThreads] at h
      | cacheSize n =>
          refine ⟨hrest.1.trans ?_, hrest.2.trans ?_⟩ <;>
            by_cases hn : n < 0 <;> simp [applyDirective, hn]
      | other => exact hrest

lemma reload_no_cache_write (c : List Directive) (s : SettingsState)
    (h : c.any Directive.writesCache = false) :
    (reload_vwrc c s).system_cache_size = s.system_cache_size ∧
    (reload_vwrc c s).system_cache_size_override
      = s.system_cache_size_override := by
  induction c generalizing s with
  | nil => exact ⟨rfl, rfl⟩
  | cons d c ih =>
      simp only [List.any_cons, Bool.or_eq_false_iff] at h
      rw [reload_vwrc, List.foldl_cons, ← reload_vwrc]
      have hrest := ih (applyDirective s d) h.2
      cases d with
      | numThreads n => exact hrest
      | cacheSize n =>
          have hn : n < 0 := by
            by_contra hn
            simp [Directive.writesCache, hn] at h
          refine ⟨hrest.1.trans ?_, hrest.2.trans ?_⟩ <;>
            simp [applyDirective, hn]
      | other => exact hrest

lemma stat_vwrc_threads_frame (now : Int) (mtime : Option Int)
    (c : List Directive) (s : SettingsState)
    (h : c.any Directive.writesThreads = false) :
    (stat_vwrc now mtime c s).default_num_threads = s.default_num_threads ∧
    (stat_vwrc now mtime c s).default_num_threads_override
      = s.default_num_threads_override := by
  by_cases hd : pollDue now s
  · cases mtime with
    | none => simp [stat_vwrc, hd, statCheck]
    | some m =>
        by_cases hm : s.vwrc_last_modification < m
        · simpa [stat_vwrc, hd, statCheck, hm] using
            reload_no_threads_write c _ h
        · simp [stat_vwrc, hd, statCheck, hm]
  · simp [stat_vwrc, hd]

lemma stat_vwrc_cache_frame (now : Int) (mtime : Option Int)
    (c : List Directive) (s : SettingsState)
    (h : c.any Directive.writesCache = false) :
    (stat_vwrc now mtime c s).system_cache_size = s.system_cache_size ∧
    (stat_vwrc now mtime c s).system_cache_size_override
      = s.system_cache_size_override := by
  by_cases hd : pollDue now s
  · cases mtime with
    | none => simp [stat_vwrc, hd, statCheck]
    | some m =>
        by_cases hm : s.vwrc_last_modification < m
        · simpa [stat_vwrc, hd, statCheck, hm] using
            reload_no_cache_write c _ h
        · simp [stat_vwrc, hd, statCheck, hm]
  · simp [stat_vwrc, hd]

lemma step_threads_frame (s : SettingsState) (e : Event)
    (h : e.mayWriteThreads = false) :
    (step s e).default_num_threads = s.default_num_threads ∧
    (step s e).default_num_threads_override
      = s.default_num_threads_override := by
  cases e with
  | setThreads n => simp [Event.mayWriteThreads] at h
  | setCache n => exact ⟨rfl, rfl⟩
  | getThreads now mtime c =>
      simpa [step, default_num_threads] using
        stat_vwrc_threads_frame now mtime c s
          (by simpa [Event.mayWriteThreads] using h)
  | getCache now mtime c =>
      simpa [step, system_cache_size] using
        stat_vwrc_threads_frame now mtime c s
          (by simpa [Event.mayWriteThreads] using h)
  | setFilename f now mtime c =>
      simpa [step, set_vwrc_filename] using
        stat_vwrc_threads_frame now mtime c _
          (by simpa [Event.mayWriteThreads] using h)
  | setPollPeriod p now mtime c =>
      simpa [step, set_vwrc_poll_period] using
        stat_vwrc_threads_frame now mtime c _
          (by simpa [Event.mayWriteThreads] using h)

lemma step_cache_frame (s : SettingsState) (e : Event)
    (h : e.mayWriteCache = false) :
    (step s e).system_cache_size = s.system_cache_size ∧
    (step s e).system_cache_size_override = s.system_cache_size_override := by
  cases e with
  | setCache n => simp [Event.mayWriteCache] at h
  | setThreads n => exact ⟨rfl, rfl⟩
  | getThreads now mtime c =>
      simpa [step, default_num_threads] using
        stat_vwrc_cache_frame now mtime c s
          (by simpa [Event.mayWriteCache] using h)
  | getCache now mtime c =>
      simpa [step, system_cache_size] using
        stat_vwrc_cache_frame now mtime c s
          (by simpa [Event.mayWriteCache] using h)
  | setFilename f now mtime c =>
      simpa [step, set_vwrc_filename] using
        stat_vwrc_cache_frame now mtime c _
          (by simpa [Event.mayWriteCache] using h)
  | setPollPeriod p now mtime c =>
      simpa [step, set_vwrc_poll_period] using
        stat_vwrc_cache_frame now mtime c _
          (by simpa [Event.mayWriteCache] using h)

lemma run_threads_frame (es : List Event) :
    ∀ s : SettingsState, (∀ e ∈ es, e.mayWriteThreads = false) →
    (run s es).default_num_threads = s.default_num_threads ∧
    (run s es).default_num_threads_override
      = s.default_num_threads_override := by
  induction es with
  | nil => exact fun s _ => ⟨rfl, rfl⟩
  | cons e es ih =>
      intro s h
      have hstep := step_threads_frame s e (h e (by simp))
      have hrest := ih (step s e) (fun f hf => h f (by simp [hf]))
      rw [run, List.foldl_cons, ← run]
      exact ⟨hrest.1.trans hstep.1, hrest.2.trans hstep.2⟩

lemma run_cache_frame (es : List Event) :
    ∀ s : SettingsState, (∀ e ∈ es, e.mayWriteCache = false) →
    (run s es).system_cache_size = s.system_cache_size ∧
    (run s es).system_cache_size_override = s.system_cache_size_override := by
  induction es with
  | nil => exact fun s _ => ⟨rfl, rfl⟩
  | cons e es ih =>
      intro s h
      have hstep := step_cache_frame s e (h e (by simp))
      have hrest := ih (step s e) (fun f hf => h f (by simp [hf]))
      rw [run, List.foldl_cons, ← run]
      exact ⟨hrest.1.trans hstep.1, hrest.2.trans hstep.2⟩

end VW

namespace VW

/-- **C5**: recency wins.  (a)/(b) After an explicit setter call, the
written value and its override flag persist across any sequence of
accesses none of which writes that setting again (no further explicit
set, and no access whose parsed file contents carry a directive for
that setting).  (c)/(d) A reload whose contents specify a setting
overwrites whatever was there before — including a prior explicit
override — and the last directive for a setting within the contents
wins. -/
theorem C5_recency_wins :
    (∀ (s : SettingsState) (n : Int) (es : List Event),
      (∀ e ∈ es, e.mayWriteThreads = false) →
      (run (set_default_num_threads n s) es).default_num_threads = n ∧
      (run (set_default_num_threads n s) es).default_num_threads_override
        = true) ∧
    (∀ (s : SettingsState) (sz : Nat) (es : List Event),
      (∀ e ∈ es, e.mayWriteCache = false) →
      (run (set_system_cache_size sz s) es).system_cache_size = sz ∧
      (run (set_system_cache_size sz s) es).system_cache_size_override
        = true) ∧
    (∀ (s : SettingsState) (c1 c2 : List Directive) (n : Int),
      (∀ d ∈ c2, d.writesThreads = false) →
      (reload_vwrc (c1 ++ Directive.numThreads n :: c2) s).default_num_threads
        = n ∧
      (reload_vwrc (c1 ++ Directive.numThreads n :: c2)
          s).default_num_threads_override = true) ∧
    (∀ (s : SettingsState) (c1 c2 : List Directive) (n : Int), 0 ≤ n →
      (∀ d ∈ c2, d.writesCache = false) →
      (reload_vwrc (c1 ++ Directive.cacheSize n :: c2) s).system_cache_size
        = n.toNat ∧
      (reload_vwrc (c1 ++ Directive.cacheSize n :: c2)
          s).system_cache_size_override = true) := by
  refine ⟨?_, ?_, ?_, ?_⟩
  · intro s n es h
    have := run_threads_frame es (set_default_num_threads n s) h
    exact ⟨this.1, this.2⟩
  · intro s sz es h
    have := run_cache_frame es (set_system_cache_size sz s) h
    exact ⟨this.1, this.2⟩
  · intro s c1 c2 n h
    have hany : c2.any Directive.writesThreads = false := by
      simp only [List.any_eq_false]
      intro d hd
      simp [h d hd]
    rw [reload_vwrc, List.foldl_append, List.foldl_cons, ← reload_vwrc]
    have := reload_no_threads_write c2
      (applyDirective (List.foldl applyDirective s c1) (.numThreads n)) hany
    exact ⟨this.1, this.2⟩
  · intro s c1 c2 n hn h
    have hany : c2.any Directive.writesCache = false := by
      simp only [List.any_eq_false]
      intro d hd
      simp [h d hd]
    rw [reload_vwrc, List.foldl_append, List.foldl_cons, ← reload_vwrc]
    have := reload_no_cache_write c2
      (applyDirective (List.foldl applyDirective s c1) (.cacheSize n)) hany
    have hlt : ¬ n < 0 := not_lt.2 hn
    refine ⟨this.1.trans ?_, this.2.trans ?_⟩ <;> simp [applyDirective, hlt]

/-- Witness for **C5** at concrete inputs: an explicit thread-count
set to 8 survives two reads (one of which reloads a file writing only
the cache size); an explicit cache set to 9 survives a read; a reload
containing two thread-count directives ends at the later one even
over an explicit override; a cache directive of 5 lands as 5. -/
theorem C5_recency_wins_witness :
    (run (set_default_num_threads 8 (SettingsState.init 4 768))
      [.getCache 100 none [], .getThreads 200 (some 7)
        [.cacheSize 9, .other]]).default_num_threads = 8 ∧
    (run (set_system_cache_size 9 (SettingsState.init 4 768))
      [.getThreads 100 none []]).system_cache_size = 9 ∧
    (reload_vwrc [.numThreads 1, .numThreads 2, .cacheSize 3, .other]
      (set_default_num_threads 8 (SettingsState.init 4 768))).default_num_threads
      = 2 ∧
    (reload_vwrc [.cacheSize 5, .other]
      (SettingsState.init 4 768)).system_cache_size = Int.toNat 5 := by
  obtain ⟨h1, h2, h3, h4⟩ := C5_recency_wins
  exact ⟨(h1 (SettingsState.init 4 768) 8
      [.getCache 100 none [], .getThreads 200 (some 7) [.cacheSize 9, .other]]
      (by decide)).1,
    (h2 (SettingsState.init 4 768) 9 [.getThreads 100 none []] (by decide)).1,
    (h3 (set_default_num_threads 8 (SettingsState.init 4 768))
      [.numThreads 1] [.cacheSize 3, .other] 2 (by decide)).1,
    (h4 (SettingsState.init 4 768) [] [.other] 5 (by decide) (by decide)).1⟩

end VW

namespace VW

/-! ## Settings frame under reload-free accesses -/

lemma stat_vwrc_no_reload_frame (now : Int) (mtime : Option Int)
    (c : List Directive) (s : SettingsState)
    (h : (pollDue now s && statSeesChange mtime s) = false) :
    (stat_vwrc now mtime c s).default_num_threads = s.default_num_threads ∧
    (stat_vwrc now mtime c s).default_num_threads_override
      = s.default_num_threads_override ∧
    (stat_vwrc now mtime c s).system_cache_size = s.system_cache_size ∧
    (stat_vwrc now mtime c s).system_cache_size_override
      = s.system_cache_size_override := by
  by_cases hd : pollDue now s
  · have hsc : statSeesChange mtime s = false := by simpa [hd] using h
    cases mtime with
    | none => simp [stat_vwrc, hd, statCheck]
    | some m =>
        have hm : ¬ s.vwrc_last_modification < m := by
          simpa [statSeesChange] using hsc
        simp [stat_vwrc, hd, statCheck, hm]
  · simp [stat_vwrc, hd]

lemma step_no_reload_frame (s : SettingsState) (e : Event)
    (hset : e.isExplicitSet = false) (hrel : doesReload s e = false) :
    (step s e).default_num_threads = s.default_num_threads ∧
    (step s e).default_num_threads_override
      = s.default_num_threads_override ∧
    (step s e).system_cache_size = s.system_cache_size ∧
    (step s e).system_cache_size_override = s.system_cache_size_override := by
  cases e with
  | setThreads n => simp [Event.isExplicitSet] at hset
  | setCache n => simp [Event.isExplicitSet] at hset
  | getThreads now mtime c =>
      simpa [step, default_num_threads] using
        stat_vwrc_no_reload_frame now mtime c s
          (by simpa [doesReload] using hrel)
  | getCache now mtime c =>
      simpa [step, system_cache_size] using
        stat_vwrc_no_reload_frame now mtime c s
          (by simpa [doesReload] using hrel)
  | setFilename f now mtime c =>
      simpa [step, set_vwrc_filename] using
        stat_vwrc_no_reload_frame now mtime c
          { s with vwrc_filename := f, vwrc_last_polltime := 0 }
          (by simpa [doesReload] using hrel)
  | setPollPeriod p now mtime c =>
      simpa [step, set_vwrc_poll_period] using
        stat_vwrc_no_reload_frame now mtime c
          { s with vwrc_poll_period := p, vwrc_last_polltime := 0 }
          (by simpa [doesReload] using hrel)

lemma run_no_reload_frame (es : List Event) :
    ∀ s : SettingsState, (∀ e ∈ es, e.isExplicitSet = false) →
    countReloads s es = 0 →
    (run s es).default_num_threads = s.default_num_threads ∧
    (run s es).default_num_threads_override
      = s.default_num_threads_override ∧
    (run s es).system_cache_size = s.system_cache_size ∧
    (run s es).system_cache_size_override = s.system_cache_size_override := by
  induction es with
  | nil => exact fun s _ _ => ⟨rfl, rfl, rfl, rfl⟩
  | cons e es ih =>
      intro s hset hcnt
      have hrel : doesReload s e = false := by
        by_contra hr
        simp only [Bool.not_eq_false] at hr
        simp [countReloads, hr] at hcnt
      simp only [countReloads, hrel, if_neg (by simp : ¬ false = true),
        Nat.zero_add] at hcnt
      have hstep := step_no_reload_frame s e (hset e (by simp)) hrel
      have hrest := ih (step s e) (fun f hf => hset f (by simp [hf])) hcnt
      rw [run, List.foldl_cons, ← run]
      exact ⟨hrest.1.trans hstep.1, hrest.2.1.trans hstep.2.1,
        hrest.2.2.1.trans hstep.2.2.1, hrest.2.2.2.trans hstep.2.2.2⟩

/-- **C9**: the store is constructed with poll period 5 seconds and
file path `~/.vwrc`, with both settings at their built-in defaults and
both override flags false; along any trace with no explicit setter
call and no reload, the getters keep returning the built-in defaults
with the flags still false. -/
theorem C9_initial_defaults (dt : Int) (dc : Nat) (es : List Event)
    (h1 : ∀ e ∈ es, e.isExplicitSet = false)
    (h2 : countReloads (SettingsState.init dt dc) es = 0) :
    (SettingsState.init dt dc).vwrc_poll_period = 5 ∧
    (SettingsState.init dt dc).vwrc_filename = "~/.vwrc" ∧
    (run (SettingsState.init dt dc) es).default_num_threads = dt ∧
    (run (SettingsState.init dt dc) es).default_num_threads_override
      = false ∧
    (run (SettingsState.init dt dc) es).system_cache_size = dc ∧
    (run (SettingsState.init dt dc) es).system_cache_size_override = false ∧
    (∀ (now : Int) (mtime : Option Int) (c : List Directive),
      doesReload (run (SettingsState.init dt dc) es)
        (.getThreads now mtime c) = false →
      (default_num_threads now mtime c
        (run (SettingsState.init dt dc) es)).1 = dt) ∧
    (∀ (now : Int) (mtime : Option Int) (c : List Directive),
      doesReload (run (SettingsState.init dt dc) es)
        (.getCache now mtime c) = false →
      (system_cache_size now mtime c
        (run (SettingsState.init dt dc) es)).1 = dc) := by
  have hfr := run_no_reload_frame es (SettingsState.init dt dc) h1 h2
  refine ⟨rfl, rfl, hfr.1, hfr.2.1, hfr.2.2.1, hfr.2.2.2, ?_, ?_⟩
  · intro now mtime c hrel
    have := stat_vwrc_no_reload_frame now mtime c
      (run (SettingsState.init dt dc) es) (by simpa [doesReload] using hrel)
    exact this.1.trans hfr.1
  · intro now mtime c hrel
    have := stat_vwrc_no_reload_frame now mtime c
      (run (SettingsState.init dt dc) es) (by simpa [doesReload] using hrel)
    exact this.2.2.1.trans hfr.2.2.1

/-- Witness for **C9**: two reads against an absent file leave the
fresh store (defaults 4 threads, 768 megabytes) at its defaults, and a
further read still returns them. -/
theorem C9_initial_defaults_witness :
    (run (SettingsState.init 4 768)
      [.getThreads 10 none [], .getCache 11 none []]).default_num_threads
      = 4 ∧
    (run (SettingsState.init 4 768)
      [.getThreads 10 none [], .getCache 11 none []]).system_cache_size
      = 768 ∧
    (default_num_threads 12 none []
      (run (SettingsState.init 4 768)
        [.getThreads 10 none [], .getCache 11 none []])).1 = 4 := by
  have h := C9_initial_defaults 4 768
    [.getThreads 10 none [], .getCache 11 none []] (by decide) (by decide)
  exact ⟨h.2.2.1, h.2.2.2.2.1, h.2.2.2.2.2.2.1 12 none [] (by decide)⟩

end VW

namespace VW

lemma stat_vwrc_filename (now : Int) (mtime : Option Int) (c : List Directive)
    (s : SettingsState) :
    (stat_vwrc now mtime c s).vwrc_filename = s.vwrc_filename := by
  by_cases h : pollDue now s <;> simp [stat_vwrc, h, statCheck_filename]

/-- **C6** counterexample: `set_vwrc_filename` does NOT merely reset
`lastPollTime` for the next access to pick up — it invokes
`stat_vwrc()` itself (Settings.h:81), which stamps `lastPollTime` with
the current time, so the next settings access performs no stat.
Concretely: from the fresh store, `set_vwrc_filename` at time 200
stats during the setter call and leaves `lastPollTime = 200`, and the
read one second later does not stat (it would have to wait out a full
fresh poll period); likewise for `set_vwrc_poll_period`. -/
theorem C6_config_setters_counterexample :
    doesStat (SettingsState.init 4 768)
      (.setFilename "conf" 200 none []) = true ∧
    (set_vwrc_filename "conf" 200 none []
      (SettingsState.init 4 768)).vwrc_last_polltime = 200 ∧
    doesStat (set_vwrc_filename "conf" 200 none [] (SettingsState.init 4 768))
      (.getThreads 201 none []) = false ∧
    doesStat (set_vwrc_poll_period 5 200 none [] (SettingsState.init 4 768))
      (.getCache 201 none []) = false := by
  decide

/-- **C6** (amended): `set_vwrc_filename(path)` and
`set_vwrc_poll_period(period)` update the reload configuration (file
path, poll period), reset `lastPollTime` to 0 and immediately invoke
the stat check themselves; whenever the current time is at least the
(new) poll period, the file is therefore stat'd during the setter call
itself — not on the next settings access — and `lastPollTime` becomes
the current time. -/
theorem C6_config_setters_amended (s : SettingsState) (f : String) (p : ℚ)
    (now : Int) (mtime : Option Int) (c : List Directive)
    (hf : s.vwrc_poll_period ≤ (now : ℚ)) (hp : p ≤ (now : ℚ)) :
    (set_vwrc_filename f now mtime c s).vwrc_filename = f ∧
    doesStat s (.setFilename f now mtime c) = true ∧
    (set_vwrc_filename f now mtime c s).vwrc_last_polltime = now ∧
    (set_vwrc_poll_period p now mtime c s).vwrc_poll_period = p ∧
    doesStat s (.setPollPeriod p now mtime c) = true ∧
    (set_vwrc_poll_period p now mtime c s).vwrc_last_polltime = now := by
  have hdf : pollDue now
      { s with vwrc_filename := f, vwrc_last_polltime := 0 } = true := by
    rw [pollDue_true_iff]
    simpa using hf
  have hdp : pollDue now
      { s with vwrc_poll_period := p, vwrc_last_polltime := 0 } = true := by
    rw [pollDue_true_iff]
    simpa using hp
  refine ⟨?_, ?_, ?_, ?_, ?_, ?_⟩
  · rw [set_vwrc_filename, stat_vwrc_filename]
  · simpa [doesStat] using hdf
  · simp [set_vwrc_filename, stat_vwrc_polltime, hdf]
  · rw [set_vwrc_poll_period, stat_vwrc_period]
  · simpa [doesStat] using hdp
  · simp [set_vwrc_poll_period, stat_vwrc_polltime, hdp]

/-- Witness for the amended **C6** at a concrete input. -/
theorem C6_config_setters_amended_witness :
    (set_vwrc_filename "conf" 200 none []
      (SettingsState.init 4 768)).vwrc_filename = "conf" ∧
    doesStat (SettingsState.init 4 768)
      (.setFilename "conf" 200 none []) = true ∧
    (set_vwrc_poll_period 2 200 none []
      (SettingsState.init 4 768)).vwrc_poll_period = 2 ∧
    (set_vwrc_poll_period 2 200 none []
      (SettingsState.init 4 768)).vwrc_last_polltime = 200 := by
  have h := C6_config_setters_amended (SettingsState.init 4 768) "conf" 2
    200 none [] (by decide) (by decide)
  exact ⟨h.1, h.2.1, h.2.2.2.1, h.2.2.2.2.2⟩

end VW
